import Mathlib

/-!
Verification development for the ajenitk-context tool-registry and MCP
protocol layer.  Python data is modelled by a small JSON-like `Value` type;
Python dictionaries are association lists whose assignment keeps the first
position of a key (as CPython dicts do); Python exceptions are modelled by
`Except` with an explicit exception datatype.  Wall-clock durations
(floats in the source) are abstracted to `Nat` parameters threaded where
the source reads a clock.
-/

namespace Ajentik

/-- JSON-like runtime values (Python objects exchanged through the tool layer).
Python byte strings and floats are not modelled (no claim mentions them). -/
inductive Value where
  | str (s : String)
  | int (n : Int)
  | bool (b : Bool)
  | list (xs : List Value)
  | dict (xs : List (String × Value))
deriving Repr, Inhabited

/-- Lookup in a Python dict modelled as an association list (first match). -/
def pyLookup (d : List (String × α)) (k : String) : Option α :=
  (d.find? (fun kv => kv.1 == k)).map (·.2)

/-- Key membership test (`k in d`). -/
def pyContains (d : List (String × α)) (k : String) : Bool :=
  (pyLookup d k).isSome

/-- Python dict assignment `d[k] = v`: updates in place keeping the original
key position, appends at the end for a fresh key. -/
def assocSet : List (String × α) → String → α → List (String × α)
  | [], k, v => [(k, v)]
  | (k', v') :: rest, k, v =>
    if k' = k then (k, v) :: rest else (k', v') :: assocSet rest k v

/-- Python `d1.update(d2)`. -/
def dictUpdate (d upd : List (String × Value)) : List (String × Value) :=
  upd.foldl (fun acc kv => assocSet acc kv.1 kv.2) d

/-- Python truthiness of a `Value`. -/
def valueTruthy : Value → Bool
  | .str s => s != ""
  | .int n => n != 0
  | .bool b => b
  | .list xs => !xs.isEmpty
  | .dict xs => !xs.isEmpty

/-- Python `name in xs` for a list of values compared against a string
(`"a" == 3` is `False` in Python, so non-string elements never match). -/
def containsStr (xs : List Value) (n : String) : Bool :=
  xs.any (fun v => match v with | .str s => s == n | _ => false)

/-! ### Exceptions

The exception classes that the modelled code can raise:
`tools.base.ToolError`, `exceptions.ToolNotFoundError`,
`exceptions.SecurityError`, and a catch-all for other Python exceptions
(carrying the class name and the message).  `ToolNotFoundError` and
`SecurityError` are *not* subclasses of `tools.base.ToolError` (they derive
from `exceptions.AjentikError`), so `except ToolError` in `tools/base.py`
catches only the `toolError` constructor. -/
inductive PyExc where
  | toolError (msg : String)
  | toolNotFound (name : String)
  | securityError (msg level action : String)
  | other (ty msg : String)
deriving Repr, DecidableEq

/-- `str(e)` — all modelled classes store the message via `super().__init__`. -/
def PyExc.message : PyExc → String
  | .toolError m => m
  | .toolNotFound n => s!"Tool '{n}' not found in registry"
  | .securityError m _ _ => m
  | .other _ m => m

/-- `type(e).__name__`. -/
def PyExc.typeName : PyExc → String
  | .toolError _ => "ToolError"
  | .toolNotFound _ => "ToolNotFoundError"
  | .securityError _ _ _ => "SecurityError"
  | .other ty _ => ty

/-! ### Tool parameters and results (`src/tools/base.py`) -/

/-- `ToolParameterType` from `src/tools/base.py`. -/
inductive ToolParameterType where
  | string
  | integer
  | float
  | boolean
  | object
  | array
  | file_path
  | url
deriving Repr, DecidableEq

/-- `ToolParameter` from `src/tools/base.py`.  `default = none` models
Python `None`; `constraints = none` models `None` (absent). -/
structure ToolParameter where
  name : String
  type : ToolParameterType
  description : String
  required : Bool := true
  default : Option Value := none
  constraints : Option (List (String × Value)) := none
deriving Repr

/-- `ToolResult` from `src/tools/base.py` (the `timestamp` field is not
modelled; `execution_time` is abstracted to `Nat`). -/
structure ToolResult where
  success : Bool
  data : Option Value := none
  error : Option String := none
  metadata : List (String × Value) := []
  executionTime : Option Nat := none
deriving Repr

/-! ### Parameter validation and `Tool.__call__` (`src/tools/base.py`) -/

/-- `params = {p.name: p for p in self.parameters()}` — the dict
comprehension keeps the first position of a duplicated name with the last
definition winning. -/
def upsertParam : List ToolParameter → ToolParameter → List ToolParameter
  | [], p => [p]
  | q :: rest, p =>
    if q.name = p.name then p :: rest else q :: upsertParam rest p

def paramDict (ps : List ToolParameter) : List ToolParameter :=
  ps.foldl upsertParam []

/-- The `for param_name, param_def in params.items()` loop of
`Tool.validate_parameters`. -/
def validateLoop : List ToolParameter → List (String × Value) →
    Except PyExc (List (String × Value))
  | [], _ => .ok []
  | p :: rest, kwargs =>
    match pyLookup kwargs p.name with
    | some v =>
      match validateLoop rest kwargs with
      | .error e => .error e
      | .ok tail => .ok ((p.name, v) :: tail)
    | none =>
      if p.required then
        match p.default with
        | some d =>
          match validateLoop rest kwargs with
          | .error e => .error e
          | .ok tail => .ok ((p.name, d) :: tail)
        | none => .error (.toolError s!"Required parameter '{p.name}' not provided")
      else
        match p.default with
        | some d =>
          match validateLoop rest kwargs with
          | .error e => .error e
          | .ok tail => .ok ((p.name, d) :: tail)
        | none => validateLoop rest kwargs

/-- `Tool.validate_parameters` from `src/tools/base.py` (the source performs
no type validation — only unknown-key and required/default handling).
The unknown-parameter message joins the offending keys in argument order
(the source joins a Python set, whose order is unspecified). -/
def validateParameters (ps : List ToolParameter) (kwargs : List (String × Value)) :
    Except PyExc (List (String × Value)) :=
  let params := paramDict ps
  let unknown := kwargs.filter (fun kv => !params.any (fun p => p.name == kv.1))
  let unknownNames := String.intercalate ", " (unknown.map (fun kv => kv.1))
  if !unknown.isEmpty then
    .error (.toolError s!"Unknown parameters: {unknownNames}")
  else
    validateLoop params kwargs

/-- `Tool.__call__` from `src/tools/base.py`: validate, run the abstract
`execute` body, stamp the execution time; `except ToolError: raise`
re-raises `tools.base.ToolError`, every other exception is converted to a
failed `ToolResult`.  `t` is the elapsed wall-clock time. -/
def toolCall (t : Nat) (ps : List ToolParameter)
    (body : List (String × Value) → Except PyExc ToolResult)
    (kwargs : List (String × Value)) : Except PyExc ToolResult :=
  let attempt : Except PyExc ToolResult :=
    match validateParameters ps kwargs with
    | .error e => .error e
    | .ok validated =>
      match body validated with
      | .error e => .error e
      | .ok r => .ok { r with executionTime := some t }
  match attempt with
  | .ok r => .ok r
  | .error (.toolError m) => .error (.toolError m)
  | .error e =>
    .ok { success := false, error := some e.message,
          metadata := [("error_type", .str e.typeName)], executionTime := some t }

/-! ### Decorator-built tools (`src/tools/decorators.py`) -/

/-- `DecoratedTool.execute`: the wrapped function either returns a
`ToolResult` (`Sum.inl`), returns any other Python value — possibly `None`
(`Sum.inr`) — or raises.  Every exception is converted to a failed result. -/
def decoratedExecute
    (func : List (String × Value) → Except PyExc (ToolResult ⊕ Option Value))
    (kwargs : List (String × Value)) : ToolResult :=
  match func kwargs with
  | .ok (.inl r) => r
  | .ok (.inr v) => { success := true, data := v }
  | .error e =>
    { success := false, error := some e.message,
      metadata := [("error_type", .str e.typeName)] }

/-! ### The legacy registry (`src/tools/registry.py`) -/

/-- A registered tool object: the observable attributes of `tools.base.Tool`
together with its abstract `execute` body. -/
structure PyTool where
  name : String
  description : String := ""
  category : String := "general"
  isSafe : Bool := true
  params : List ToolParameter := []
  body : List (String × Value) → Except PyExc ToolResult

/-- Add a name to a category set (`self._categories[c].add(n)`). -/
def setAdd (xs : List String) (n : String) : List String :=
  if xs.contains n then xs else xs ++ [n]

/-- `ToolRegistry` state from `src/tools/registry.py`. -/
structure Registry where
  tools : List (String × PyTool) := []
  categories : List (String × List String) := []
  aliases : List (String × String) := []

namespace Registry

/-- `ToolRegistry.register`: never fails on a duplicate name — it logs a
warning and overwrites the entry (and likewise overwrites aliases). -/
def register (reg : Registry) (tool : PyTool) (aliasNames : List String) : Registry :=
  let tools := assocSet reg.tools tool.name tool
  let catSet := (pyLookup reg.categories tool.category).getD []
  let categories := assocSet reg.categories tool.category (setAdd catSet tool.name)
  let aliases := aliasNames.foldl (fun a al => assocSet a al tool.name) reg.aliases
  { tools, categories, aliases }

/-- `ToolRegistry.get`: resolves an alias, then looks the name up. -/
def get (reg : Registry) (name : String) : Option PyTool :=
  pyLookup reg.tools ((pyLookup reg.aliases name).getD name)

/-- `ToolRegistry.execute`: raises `ToolError` when the tool is unknown,
otherwise invokes the tool through `Tool.__call__`. -/
def execute (t : Nat) (reg : Registry) (name : String)
    (kwargs : List (String × Value)) : Except PyExc ToolResult :=
  match reg.get name with
  | none => .error (.toolError s!"Tool '{name}' not found")
  | some tool => toolCall t tool.params tool.body kwargs

end Registry

/-! ### The refactored registry (`src/tools/registry_refactored.py`) -/

/-- `SecurityLevel` — the ordered enum shared by
`registry_refactored.py` and `tools/validation.py`. -/
inductive SecurityLevel where
  | unrestricted
  | safe
  | sandboxed
  | restricted
deriving Repr, DecidableEq

/-- Position in the declared order Unrestricted < Safe < Sandboxed < Restricted. -/
def SecurityLevel.rank : SecurityLevel → Nat
  | .unrestricted => 0
  | .safe => 1
  | .sandboxed => 2
  | .restricted => 3

/-- The `.value` string of the enum member. -/
def SecurityLevel.toStr : SecurityLevel → String
  | .unrestricted => "unrestricted"
  | .safe => "safe"
  | .sandboxed => "sandboxed"
  | .restricted => "restricted"

/-- The `restricted_tags` table of `ToolRegistry._check_security`
(`registry_refactored.py`); `restricted_tags.get(level, set())` yields the
empty set for `UNRESTRICTED`, which is also short-circuited to allowed. -/
def restrictedTags : SecurityLevel → List String
  | .unrestricted => []
  | .safe => ["system", "network", "dangerous"]
  | .sandboxed => ["system", "network", "file_write", "dangerous"]
  | .restricted => ["system", "network", "file_write", "file_read", "dangerous"]

/-- Python set intersection of two tag collections, as a filtered list. -/
def pyIntersect (a b : List String) : List String :=
  a.filter (fun x => b.contains x)

/-- `ToolRegistry._check_security`: `UNRESTRICTED` always allows; otherwise
the tool is allowed iff its tag set does not intersect the restricted set. -/
def checkSecurity (level : SecurityLevel) (tags : List String) : Bool :=
  if level = .unrestricted then true
  else (pyIntersect tags (restrictedTags level)).isEmpty

/-- A tool handled by the refactored registry: the observable metadata of
`base_refactored.Tool` plus its abstract `execute` body. -/
structure RTool where
  name : String
  tags : List String := []
  category : String := "general"
  author : String := ""
  execute : List (String × Value) → Except PyExc ToolResult

/-- Per-tool execution statistics (`_update_stats`); times are abstracted to
`Nat`, and `minTime = none` models the initial `float('inf')`. -/
structure ExecStats where
  total : Nat := 0
  successful : Nat := 0
  failed : Nat := 0
  totalTime : Nat := 0
  minTime : Option Nat := none
  maxTime : Nat := 0
deriving Repr, DecidableEq

/-- Refactored `ToolRegistry` state.  The redundant `ToolRegistryIndex`
cache and the weak-reference table are not modelled: neither is observed by
`get`, `register`, `unregister` or `execute`. -/
structure RRegistry where
  tools : List (String × RTool) := []
  aliases : List (String × String) := []
  securityLevel : SecurityLevel := .safe
  stats : List (String × ExecStats) := []

namespace RRegistry

/-- `ToolRegistry.get` (refactored): resolve alias, then look up. -/
def get (reg : RRegistry) (name : String) : Option RTool :=
  pyLookup reg.tools ((pyLookup reg.aliases name).getD name)

/-- `ToolRegistry.unregister` (refactored): raises `ToolNotFoundError` for
an unknown name; removes the tool, every alias pointing to it, and its
statistics. -/
def unregister (reg : RRegistry) (name : String) : Except PyExc RRegistry :=
  let toolName := (pyLookup reg.aliases name).getD name
  if !pyContains reg.tools toolName then
    .error (.toolNotFound toolName)
  else
    .ok { reg with
          tools := reg.tools.filter (fun kv => kv.1 != toolName),
          aliases := reg.aliases.filter (fun kv => kv.2 != toolName),
          stats := reg.stats.filter (fun kv => kv.1 != toolName) }

/-- The `for alias in aliases` loop of the refactored `register`: raises
`ToolError` on a duplicate alias without `replace`, else records the alias. -/
def registerAliases (reg : RRegistry) (toolName : String) :
    List String → Bool → Except PyExc RRegistry
  | [], _ => .ok reg
  | al :: rest, replace =>
    if pyContains reg.aliases al && !replace then
      .error (.toolError s!"Alias '{al}' already in use")
    else
      registerAliases { reg with aliases := assocSet reg.aliases al toolName }
        toolName rest replace

/-- `ToolRegistry.register` (refactored): raises `ToolError` on a duplicate
name without `replace`; with `replace` the old entry is unregistered first.
The class-instantiation and isinstance branches are not modelled (a Lean
`RTool` is always a valid instance).  An exception raised on a duplicate
alias leaves the partially mutated Python state behind; here the exception
value carries no state (no claim depends on that partial state). -/
def register (reg : RRegistry) (tool : RTool) (aliasNames : List String)
    (replace : Bool) : Except PyExc RRegistry :=
  if pyContains reg.tools tool.name && !replace then
    .error (.toolError s!"Tool '{tool.name}' already registered")
  else
    match (if pyContains reg.tools tool.name then unregister reg tool.name else .ok reg) with
    | .error e => .error e
    | .ok reg1 =>
      registerAliases { reg1 with tools := assocSet reg1.tools tool.name tool }
        tool.name aliasNames replace

/-- `ToolRegistry._update_stats` (refactored); the `defaultdict` entry is
initialised on first use. -/
def updateStats (stats : List (String × ExecStats)) (toolName : String)
    (success : Bool) (time : Nat) : List (String × ExecStats) :=
  let s := (pyLookup stats toolName).getD {}
  let s := { s with
             total := s.total + 1,
             successful := s.successful + (if success then 1 else 0),
             failed := s.failed + (if success then 0 else 1),
             totalTime := s.totalTime + time,
             minTime := some (match s.minTime with
                              | none => time
                              | some m => Nat.min m time),
             maxTime := Nat.max s.maxTime time }
  assocSet stats toolName s

/-- `ToolRegistry.execute` (refactored): resolve (raising
`ToolNotFoundError`), gate on `_check_security` (raising `SecurityError`
before the tool body can run), then run `tool.execute`, recording
statistics on both outcomes and re-raising the tool body's exception.
`t` is the elapsed time charged to a failing call. -/
def execute (t : Nat) (reg : RRegistry) (name : String)
    (kwargs : List (String × Value)) : RRegistry × Except PyExc ToolResult :=
  match reg.get name with
  | none => (reg, .error (.toolNotFound name))
  | some tool =>
    if !checkSecurity reg.securityLevel tool.tags then
      (reg, .error (.securityError
        s!"Tool '{name}' execution blocked by security policy"
        reg.securityLevel.toStr
        s!"execute tool '{name}'"))
    else
      match tool.execute kwargs with
      | .ok r =>
        ({ reg with stats := updateStats reg.stats tool.name true (r.executionTime.getD 0) },
         .ok r)
      | .error e =>
        ({ reg with stats := updateStats reg.stats tool.name false t },
         .error e)

end RRegistry

/-! ### MCP converters (`src/mcp/converters.py`) -/

/-- The MCP wire form of a tool (`mcp/models.py`, `MCPTool`). -/
structure MCPToolW where
  name : String
  description : Option String := none
  inputSchema : List (String × Value)
deriving Repr

/-- `parameter_type_to_json_schema` — the fixed type table.  The
`.get(param_type, ...)` default can never fire: the table covers the enum. -/
def parameterTypeToJsonSchema : ToolParameterType → List (String × Value)
  | .string => [("type", .str "string")]
  | .integer => [("type", .str "integer")]
  | .float => [("type", .str "number")]
  | .boolean => [("type", .str "boolean")]
  | .array => [("type", .str "array")]
  | .object => [("type", .str "object")]
  | .file_path => [("type", .str "string"), ("format", .str "path")]
  | .url => [("type", .str "string"), ("format", .str "uri")]

/-- The per-parameter schema node built inside `tool_to_mcp`: the type
table entry, then optional description / default, then
`schema.update(param.constraints)`. -/
def buildParamSchema (p : ToolParameter) : List (String × Value) :=
  let s := parameterTypeToJsonSchema p.type
  let s := if p.description != "" then assocSet s "description" (.str p.description) else s
  let s := match p.default with
           | some d => assocSet s "default" d
           | none => s
  match p.constraints with
  | some c => if !c.isEmpty then dictUpdate s c else s
  | none => s

/-- `tool_to_mcp`: builds `properties` and the `required` list in parameter
order, assembles `inputSchema`, and marks unsafe tools with
`additionalProperties: false`. -/
def toolToMcp (tool : PyTool) : MCPToolW :=
  let step := tool.params.foldl
    (fun (acc : List (String × Value) × List String) p =>
      (assocSet acc.1 p.name (.dict (buildParamSchema p)),
       if p.required then acc.2 ++ [p.name] else acc.2))
    ([], [])
  let inputSchema := [("type", Value.str "object"), ("properties", Value.dict step.1)]
  let inputSchema :=
    if !step.2.isEmpty then assocSet inputSchema "required" (.list (step.2.map .str))
    else inputSchema
  let inputSchema :=
    if !tool.isSafe then assocSet inputSchema "additionalProperties" (.bool false)
    else inputSchema
  { name := tool.name, description := some tool.description, inputSchema }

/-- Recover one `ToolParameter` from a JSON-schema property node, as
`MCPWrappedTool.parameters` does.  A present but non-string `"type"` value
matches none of the six comparisons and falls through to `STRING`, which the
empty string also does, so both are mapped through the same default. -/
def parseParamSchema (pname : String) (requiredVals : List Value)
    (ps : List (String × Value)) : ToolParameter :=
  let jsonType := match pyLookup ps "type" with
                  | some (.str t) => t
                  | some _ => ""
                  | none => "string"
  let fmt := match pyLookup ps "format" with
             | some (.str f) => f
             | _ => ""
  let ptype : ToolParameterType :=
    if jsonType = "string" then
      if fmt = "uri" then .url
      else if fmt = "path" then .file_path
      else .string
    else if jsonType = "integer" then .integer
    else if jsonType = "number" then .float
    else if jsonType = "boolean" then .boolean
    else if jsonType = "array" then .array
    else if jsonType = "object" then .object
    else .string
  let constraints :=
    ["enum", "minimum", "maximum", "minLength", "maxLength", "pattern"].filterMap
      (fun k => (pyLookup ps k).map (fun v => (k, v)))
  { name := pname,
    type := ptype,
    description := match pyLookup ps "description" with
                   | some (.str d) => d
                   | _ => s!"Parameter {pname}",
    required := containsStr requiredVals pname,
    default := pyLookup ps "default",
    constraints := if !constraints.isEmpty then some constraints else none }

/-- `MCPWrappedTool.parameters`: parses the `inputSchema` back into
parameter specs; anything but an object schema with `properties` yields no
parameters.  A property node that is not a dict would raise in Python
(`.get` on a non-dict); such nodes cannot be produced by `tool_to_mcp` and
are mapped through an empty node here. -/
def mcpToolParameters (m : MCPToolW) : List ToolParameter :=
  match pyLookup m.inputSchema "type", pyLookup m.inputSchema "properties" with
  | some (.str "object"), some (.dict props) =>
    let requiredVals := match pyLookup m.inputSchema "required" with
                        | some (.list xs) => xs
                        | _ => []
    props.map (fun kv =>
      match kv.2 with
      | .dict ps => parseParamSchema kv.1 requiredVals ps
      | _ => parseParamSchema kv.1 requiredVals [])
  | _, _ => []

/-- `mcp_to_tool`: wraps the wire form back into a tool object whose
`description` falls back for `None`/empty (Python `or`), whose parameters
come from `mcpToolParameters`, and whose body is the converter placeholder. -/
def mcpToTool (m : MCPToolW) : PyTool :=
  { name := m.name,
    description := match m.description with
                   | some d => if d = "" then s!"MCP tool: {m.name}" else d
                   | none => s!"MCP tool: {m.name}",
    category := "mcp",
    isSafe := true,
    params := mcpToolParameters m,
    body := fun _ =>
      .ok { success := false,
            error := some "MCP tool execution not implemented in converter" } }

/-! ### Result conversion (`tool_result_to_mcp`) -/

mutual

/-- `json.dumps`, up to whitespace/indentation and string escaping (the
source uses `indent=2`; no claim inspects the rendered text). -/
def jsonDumps : Value → String
  | .str s => "\"" ++ s ++ "\""
  | .int n => toString n
  | .bool b => if b then "true" else "false"
  | .list xs => "[" ++ jsonDumpsList xs ++ "]"
  | .dict xs => "\x7b" ++ jsonDumpsDict xs ++ "\x7d"

def jsonDumpsList : List Value → String
  | [] => ""
  | [x] => jsonDumps x
  | x :: xs => jsonDumps x ++ ", " ++ jsonDumpsList xs

def jsonDumpsDict : List (String × Value) → String
  | [] => ""
  | [kv] => "\"" ++ kv.1 ++ "\": " ++ jsonDumps kv.2
  | kv :: xs => "\"" ++ kv.1 ++ "\": " ++ jsonDumps kv.2 ++ ", " ++ jsonDumpsDict xs

end

/-- `CallToolResponse` (`mcp/models.py`): content blocks and the error flag. -/
structure CallToolResp where
  content : List (List (String × Value))
  isError : Bool := false
deriving Repr

/-- `tool_result_to_mcp`: success data becomes a text / image / JSON text
block (the binary `bytes` branch is outside the modelled `Value` type); a
failure becomes one `Error: ...` text block; truthy metadata appends a
`Metadata: ...` text block; `isError` mirrors `not result.success`. -/
def toolResultToMcp (r : ToolResult) : CallToolResp :=
  let base :=
    if r.success then
      match r.data with
      | some (.str s) => [[("type", Value.str "text"), ("text", Value.str s)]]
      | some (.dict d) =>
        match pyLookup d "image" with
        | some img =>
          [[("type", Value.str "image"), ("data", img),
            ("mimeType", (pyLookup d "mimeType").getD (.str "image/png"))]]
        | none =>
          [[("type", Value.str "text"),
            ("text", Value.str (if valueTruthy (.dict d) then jsonDumps (.dict d) else ""))]]
      | some v =>
        [[("type", Value.str "text"),
          ("text", Value.str (if valueTruthy v then jsonDumps v else ""))]]
      | none => [[("type", Value.str "text"), ("text", Value.str "")]]
    else
      [[("type", Value.str "text"),
        ("text", Value.str ("Error: " ++ (match r.error with
                                          | some e => e
                                          | none => "None")))]]
  let content :=
    if !r.metadata.isEmpty then
      base ++ [[("type", Value.str "text"),
                ("text", Value.str ("Metadata: " ++ jsonDumps (.dict r.metadata)))]]
    else base
  { content, isError := !r.success }

/-! ### The MCP server (`src/mcp/server.py`)

The server object holds the handshake flag, the recorded client info, the
advertised capabilities, the (legacy) tool registry it serves, and the
logging level installed by `logging/setLevel` (the observable effect of
that handler).  `validate_tool_safety` performs AST analysis of the tool's
Python source, which has no shallow embedding; it is abstracted to the
`toolSafe` predicate carried by the state. -/

/-- JSON-RPC message ids (`int | string`). -/
inductive RpcId where
  | num (n : Int)
  | strId (s : String)
deriving Repr, DecidableEq

/-- The `id` field of an inbound message: absent, JSON `null`, or a value.
`message.get("id")` collapses the first two to Python `None`. -/
inductive IdField where
  | absent
  | null
  | val (id : RpcId)
deriving Repr, DecidableEq

/-- `message.get("id")`. -/
def getId : IdField → Option RpcId
  | .absent => none
  | .null => none
  | .val i => some i

/-- An inbound JSON-RPC message as a frame: the `id` field, the optional
`method` field, and `message.get("params", {})`. -/
structure InMessage where
  idField : IdField := .absent
  method : Option String := none
  params : List (String × Value) := []

/-- Logging levels (`mcp/models.py`, `LoggingLevel`). -/
inductive LogLevel where
  | debug
  | info
  | warning
  | error
deriving Repr, DecidableEq

/-- `MCPServerCapabilities`. -/
structure ServerCaps where
  tools : Option (List (String × Value)) := none
  resources : Option (List (String × Value)) := none
  prompts : Option (List (String × Value)) := none
  logging : Option (List (String × Value)) := none
deriving Repr

/-- `MCPServer` state. -/
structure ServerState where
  name : String := "ajentik-mcp-server"
  version : String := "1.0.0"
  securityLevel : SecurityLevel := .safe
  initialized : Bool := false
  clientInfo : Option (List (String × Value)) := none
  capabilities : ServerCaps := { tools := some [], logging := some [] }
  registry : Registry := {}
  toolSafe : PyTool → Bool := fun _ => true
  logLevel : Option LogLevel := none

/-- Exceptions escaping a handler: `MCPError(code, message)` or any other
Python exception (e.g. a pydantic validation error). -/
inductive SrvExc where
  | mcpError (code : Int) (msg : String)
  | pyExc (msg : String)
deriving Repr, DecidableEq

/-- `InitializeResult` payload. -/
structure InitResult where
  protocolVersion : String
  capabilities : ServerCaps
  serverInfo : List (String × Value)
deriving Repr

/-- The value a handler returns (serialized into the JSON-RPC `result`). -/
inductive HandlerOut where
  | initRes (r : InitResult)
  | emptyRes
  | noneRes
  | listToolsRes (tools : List MCPToolW)
  | callRes (r : CallToolResp)
deriving Repr

/-- Outbound messages written to the transport. -/
inductive OutMsg where
  | response (id : Option RpcId) (result : HandlerOut)
  | errorResponse (id : Option RpcId) (code : Int) (msg : String)
  | notification (method : String) (params : Option (List (String × Value)))
deriving Repr

/-- Whether an outbound message is a reply (a JSON-RPC response carrying a
`result` or an `error`), as opposed to a server-initiated notification. -/
def OutMsg.isReply : OutMsg → Bool
  | .response _ _ => true
  | .errorResponse _ _ _ => true
  | .notification _ _ => false

/-- Parsed `InitializeRequest` (`mcp/models.py`). -/
structure InitParams where
  protocolVersion : String
  capabilities : List (String × Value)
  clientInfo : List (String × Value)
deriving Repr

/-- `InitializeRequest(**params)`: `protocolVersion` must be a string and
`capabilities` / `clientInfo` objects; anything else raises a pydantic
validation error. -/
def parseInit (params : List (String × Value)) : Except PyExc InitParams :=
  match pyLookup params "protocolVersion",
        pyLookup params "capabilities",
        pyLookup params "clientInfo" with
  | some (.str v), some (.dict caps), some (.dict ci) =>
    .ok { protocolVersion := v, capabilities := caps, clientInfo := ci }
  | _, _, _ =>
    .error (.other "ValidationError" "invalid params for InitializeRequest")

/-- Parsed `CallToolRequest`. -/
structure CallParams where
  name : String
  arguments : Option (List (String × Value)) := none
deriving Repr

/-- `CallToolRequest(**params)`. -/
def parseCallTool (params : List (String × Value)) : Except PyExc CallParams :=
  match pyLookup params "name" with
  | some (.str n) =>
    match pyLookup params "arguments" with
    | some (.dict args) => .ok { name := n, arguments := some args }
    | none => .ok { name := n }
    | some _ => .error (.other "ValidationError" "invalid params for CallToolRequest")
  | _ => .error (.other "ValidationError" "invalid params for CallToolRequest")

/-- The `LoggingLevel` enum values. -/
def parseLogLevel : String → Option LogLevel
  | "debug" => some .debug
  | "info" => some .info
  | "warning" => some .warning
  | "error" => some .error
  | _ => none

/-- `SetLoggingLevelRequest(**params)`. -/
def parseSetLevel (params : List (String × Value)) : Except PyExc LogLevel :=
  match pyLookup params "level" with
  | some (.str s) =>
    match parseLogLevel s with
    | some l => .ok l
    | none => .error (.other "ValidationError" "invalid params for SetLoggingLevelRequest")
  | _ => .error (.other "ValidationError" "invalid params for SetLoggingLevelRequest")

/-- A handler: given the clock, the server state and the request params it
yields the new state, the result or the escaped exception, and the
notifications it pushed (in order, before the reply is written). -/
abbrev Handler :=
  Nat → ServerState → List (String × Value) →
    ServerState × Except SrvExc HandlerOut × List (String × Option (List (String × Value)))

namespace MCPServer

/-- `_handle_initialize`: parse, record `clientInfo`, reject a mismatched
`protocolVersion` with `INVALID_PARAMS` (leaving `initialized` untouched),
otherwise advertise capabilities and mark the session initialized. -/
def handleInit : Handler := fun _ st params =>
  match parseInit params with
  | .error e => (st, .error (.pyExc e.message), [])
  | .ok req =>
    let st1 := { st with clientInfo := some req.clientInfo }
    if req.protocolVersion ≠ "2024-11-05" then
      (st1,
       .error (.mcpError (-32602) s!"Unsupported protocol version: {req.protocolVersion}"),
       [])
    else
      let caps : ServerCaps := { tools := some [("listChanged", .bool true)], logging := some [] }
      let st2 := { st1 with capabilities := caps, initialized := true }
      (st2,
       .ok (.initRes
         { protocolVersion := "2024-11-05",
           capabilities := caps,
           serverInfo := [("name", .str st.name), ("version", .str st.version)] }),
       [])

/-- `_handle_initialized`: pushes `notifications/tools/listChanged`. -/
def handleInitializedNote : Handler := fun _ st _ =>
  (st, .ok .noneRes, [("notifications/tools/listChanged", none)])

/-- `_handle_list_tools`: gated on the handshake; lists the registry,
filters by `validate_tool_safety` and converts with `tool_to_mcp`. -/
def handleListTools : Handler := fun _ st _ =>
  if !st.initialized then
    (st, .error (.mcpError (-32600) "Server not initialized"), [])
  else
    let tools := st.registry.tools.map (·.2)
    let safeTools := tools.filter st.toolSafe
    (st, .ok (.listToolsRes (safeTools.map toolToMcp)), [])

/-- `_handle_call_tool`: gated on the handshake; resolves the tool
(`TOOL_NOT_FOUND`), re-checks safety (`UNAUTHORIZED`), pushes a logging
notification, runs the tool through `Tool.__call__`, and wraps any
execution exception into `INTERNAL_ERROR`. -/
def handleCallTool : Handler := fun t st params =>
  if !st.initialized then
    (st, .error (.mcpError (-32600) "Server not initialized"), [])
  else
    match parseCallTool params with
    | .error e => (st, .error (.pyExc e.message), [])
    | .ok req =>
      match st.registry.get req.name with
      | none => (st, .error (.mcpError (-32002) s!"Tool not found: {req.name}"), [])
      | some tool =>
        if !st.toolSafe tool then
          (st,
           .error (.mcpError (-32005)
             s!"Tool '{req.name}' does not meet security requirements"),
           [])
        else
          let note := ("notifications/message",
            some [("level", Value.str "info"), ("logger", Value.str "tools"),
                  ("data", Value.str s!"Executing tool: {req.name}")])
          match toolCall t tool.params tool.body (req.arguments.getD []) with
          | .ok r => (st, .ok (.callRes (toolResultToMcp r)), [note])
          | .error e =>
            (st, .error (.mcpError (-32603) s!"Tool execution failed: {e.message}"), [note])

/-- `_handle_set_logging_level`: applies the level — with no handshake
gate. -/
def handleSetLoggingLevel : Handler := fun _ st params =>
  match parseSetLevel params with
  | .error e => (st, .error (.pyExc e.message), [])
  | .ok l => ({ st with logLevel := some l }, .ok .emptyRes, [])

/-- `_handle_ping`: returns `{}` — with no handshake gate. -/
def handlePing : Handler := fun _ st _ =>
  (st, .ok .emptyRes, [])

/-- The `self._handlers` dispatch table. -/
def handlers : String → Option Handler
  | "initialize" => some handleInit
  | "initialized" => some handleInitializedNote
  | "tools/list" => some handleListTools
  | "tools/call" => some handleCallTool
  | "logging/setLevel" => some handleSetLoggingLevel
  | "ping" => some handlePing
  | _ => none

/-- `_handle_message`: a missing `method` is always answered with
`INVALID_REQUEST` (echoing the possibly-null id); a message whose
`message.get("id")` is `None` is a notification — its handler still runs
but no reply of any kind is written; otherwise exactly one reply is
written (`METHOD_NOT_FOUND`, the handler result, the `MCPError`'s code and
message, or `INTERNAL_ERROR` for other handler exceptions). -/
def handleMessage (t : Nat) (st : ServerState) (msg : InMessage) :
    ServerState × List OutMsg :=
  match msg.method with
  | none => (st, [.errorResponse (getId msg.idField) (-32600) "Missing method"])
  | some m =>
    let mid := getId msg.idField
    match handlers m with
    | none =>
      if mid.isSome then
        (st, [.errorResponse mid (-32601) s!"Method not found: {m}"])
      else (st, [])
    | some h =>
      let out := h t st msg.params
      let notifMsgs := out.2.2.map (fun n => OutMsg.notification n.1 n.2)
      match out.2.1 with
      | .ok r =>
        (out.1, notifMsgs ++ (if mid.isSome then [.response mid r] else []))
      | .error (.mcpError c em) =>
        (out.1, notifMsgs ++ (if mid.isSome then [.errorResponse mid c em] else []))
      | .error (.pyExc em) =>
        (out.1, notifMsgs ++ (if mid.isSome then [.errorResponse mid (-32603) em] else []))

end MCPServer

/-! ### Concrete fixtures used by witnesses and counterexamples -/

/-- A tool body raising `tools.base.ToolError`. -/
def raisingToolErrorBody : List (String × Value) → Except PyExc ToolResult :=
  fun _ => .error (.toolError "boom")

/-- A tool body raising a generic `ValueError`. -/
def raisingValueErrorBody : List (String × Value) → Except PyExc ToolResult :=
  fun _ => .error (.other "ValueError" "bad")

/-- A decorated function returning Python `None`. -/
def funcNone : List (String × Value) → Except PyExc (ToolResult ⊕ Option Value) :=
  fun _ => .ok (.inr none)

/-- A tool body returning a successful result. -/
def okBody : List (String × Value) → Except PyExc ToolResult :=
  fun _ => .ok { success := true, data := some (.str "done") }

/-- First registration of the name `a` (legacy registry). -/
def toolA : PyTool := { name := "a", description := "old", body := okBody }

/-- Second, different tool with the same name `a`. -/
def toolB : PyTool := { name := "a", description := "new", body := okBody }

/-- A tool with one required parameter without a default. -/
def reqTool : PyTool :=
  { name := "t",
    params := [{ name := "x", type := .string, description := "the input" }],
    body := okBody }

/-- Legacy registry holding `reqTool`. -/
def legacyRegFix : Registry := Registry.register {} reqTool []

/-- A tool carrying the `network` capability tag. -/
def netTool : RTool :=
  { name := "danger", tags := ["network"], execute := fun _ => .ok { success := true } }

/-- Refactored registry at level `safe` holding `netTool`. -/
def secRegFix : RRegistry := { tools := [("danger", netTool)], securityLevel := .safe }

/-- A refactored-registry tool named `r`. -/
def rToolA : RTool := { name := "r", execute := fun _ => .ok { success := true } }

/-- A second tool with the same name `r`. -/
def rToolB : RTool :=
  { name := "r", author := "second", execute := fun _ => .ok { success := true } }

/-- Refactored registry holding `rToolA`. -/
def rRegFix : RRegistry := { tools := [("r", rToolA)] }

/-- A tool exercising every declared parameter type for the round trip. -/
def roundTool : PyTool :=
  { name := "round",
    description := "demo",
    params :=
      [{ name := "s", type := .string, description := "p" },
       { name := "i", type := .integer, description := "p" },
       { name := "f", type := .float, description := "p", required := false },
       { name := "b", type := .boolean, description := "p" },
       { name := "arr", type := .array, description := "p", required := false },
       { name := "obj", type := .object, description := "p" },
       { name := "fp", type := .file_path, description := "p",
         constraints := some [("pattern", .str ".*")] },
       { name := "u", type := .url, description := "p", required := false,
         default := some (.str "http://x") }],
    body := okBody }

/-- `initialize` params carrying an unsupported protocol version. -/
def initBadParams : List (String × Value) :=
  [("protocolVersion", .str "1999-01-01"),
   ("capabilities", .dict []),
   ("clientInfo", .dict [])]

/-- `initialize` params carrying the supported protocol version. -/
def initOkParams : List (String × Value) :=
  [("protocolVersion", .str "2024-11-05"),
   ("capabilities", .dict []),
   ("clientInfo", .dict [])]

/-! ### Association-list lemmas -/

theorem pyLookup_nil (k : String) : pyLookup ([] : List (String × α)) k = none := rfl

theorem pyLookup_cons (k1 : String) (v1 : α) (d : List (String × α)) (k : String) :
    pyLookup ((k1, v1) :: d) k = if k1 = k then some v1 else pyLookup d k := by
  by_cases h : k1 = k
  · have hb : (k1 == k) = true := by simp [h]
    simp [pyLookup, List.find?, hb, h]
  · have hb : (k1 == k) = false := by simp [h]
    simp [pyLookup, List.find?, hb, h]

theorem pyLookup_assocSet_self (d : List (String × α)) (k : String) (v : α) :
    pyLookup (assocSet d k v) k = some v := by
  induction d with
  | nil => simp [assocSet, pyLookup_cons]
  | cons kv rest ih =>
    obtain ⟨k1, v1⟩ := kv
    by_cases h : k1 = k
    · simp [assocSet, h, pyLookup_cons]
    · simp [assocSet, h, pyLookup_cons, ih]

theorem pyLookup_assocSet_ne (d : List (String × α)) (k k' : String) (v : α)
    (h : k' ≠ k) : pyLookup (assocSet d k v) k' = pyLookup d k' := by
  have h' : k ≠ k' := Ne.symm h
  induction d with
  | nil => simp [assocSet, pyLookup_cons, h']
  | cons kv rest ih =>
    obtain ⟨k1, v1⟩ := kv
    by_cases hk : k1 = k
    · subst hk
      simp [assocSet, pyLookup_cons, h']
    · simp [assocSet, hk, pyLookup_cons, ih]

theorem pyContains_false_iff (d : List (String × α)) (k : String) :
    pyContains d k = false ↔ ∀ kv ∈ d, kv.1 ≠ k := by
  induction d with
  | nil => simp [pyContains, pyLookup]
  | cons kv rest ih =>
    obtain ⟨k1, v1⟩ := kv
    by_cases h : k1 = k
    · simp [pyContains, pyLookup_cons, h]
    · simp only [pyContains, pyLookup_cons, if_neg h, List.forall_mem_cons] at ih ⊢
      simp [ih, h]

theorem pyLookup_dictUpdate_not_mem (c d : List (String × Value)) (k : String)
    (h : pyContains c k = false) :
    pyLookup (dictUpdate d c) k = pyLookup d k := by
  induction c generalizing d with
  | nil => rfl
  | cons kv rest ih =>
    have hk : kv.1 ≠ k := (pyContains_false_iff _ _).mp h kv (by simp)
    have hrest : pyContains rest k = false := by
      rw [pyContains_false_iff] at h ⊢
      exact fun kv' hkv' => h kv' (by simp [hkv'])
    show pyLookup (dictUpdate (assocSet d kv.1 kv.2) rest) k = _
    rw [ih _ hrest, pyLookup_assocSet_ne _ _ _ _ (fun hh => hk hh.symm)]

theorem pyLookup_filter_none (d : List (String × α)) (f : String × α → Bool)
    (k : String) (h : pyLookup d k = none) :
    pyLookup (d.filter f) k = none := by
  induction d with
  | nil => rfl
  | cons kv rest ih =>
    obtain ⟨k1, v1⟩ := kv
    rw [pyLookup_cons] at h
    by_cases hk : k1 = k
    · simp [hk] at h
    · have h' := ih (by simpa [hk] using h)
      by_cases hf : f (k1, v1)
      · simp [List.filter_cons, hf, pyLookup_cons, hk, h']
      · simp [List.filter_cons, hf, h']

/-! ### Security policy lemmas -/

theorem checkSecurity_iff (level : SecurityLevel) (tags : List String) :
    checkSecurity level tags = true ↔ ∀ tg ∈ tags, tg ∉ restrictedTags level := by
  by_cases h : level = .unrestricted
  · subst h
    simp [checkSecurity, restrictedTags]
  · simp [checkSecurity, h, pyIntersect, List.isEmpty_iff, List.filter_eq_nil_iff]

/-- C8: for levels L1 < L2 in the declared order, the denied-tag set of L1
is contained in that of L2, and Unrestricted denies nothing. -/
theorem denied_tags_monotone :
    (∀ l1 l2 : SecurityLevel, l1.rank < l2.rank →
      ∀ tg ∈ restrictedTags l1, tg ∈ restrictedTags l2) ∧
    restrictedTags .unrestricted = [] := by
  refine ⟨?_, rfl⟩
  intro l1 l2 h tg htg
  cases l1 <;> cases l2 <;>
    first
      | exact absurd h (by decide)
      | (simp only [restrictedTags, List.mem_cons, List.not_mem_nil, or_false]
          at htg ⊢
         try tauto)

/-- Witness for `denied_tags_monotone` at the pair Safe < Sandboxed. -/
theorem denied_tags_monotone_witness :
    SecurityLevel.rank .safe < SecurityLevel.rank .sandboxed ∧
    (∀ tg ∈ restrictedTags .safe, tg ∈ restrictedTags .sandboxed) :=
  ⟨by decide, denied_tags_monotone.1 .safe .sandboxed (by decide)⟩

/-- C1: the refactored `execute` permits a registered tool iff its tags are
disjoint from the level's denied-tag set; on a non-empty intersection it
raises `SecurityError` with the registry unchanged — the fixed right-hand
side does not mention `tool.execute`, and `tool` (hence its body) is
universally quantified, so the implementation is not invoked; on a
disjoint tag set the call's outcome is exactly the tool body's outcome. -/
theorem execute_security_gate (t : Nat) (reg : RRegistry) (name : String)
    (tool : RTool) (kwargs : List (String × Value))
    (hget : reg.get name = some tool) :
    (checkSecurity reg.securityLevel tool.tags = true ↔
      ∀ tg ∈ tool.tags, tg ∉ restrictedTags reg.securityLevel) ∧
    ((∃ tg ∈ tool.tags, tg ∈ restrictedTags reg.securityLevel) →
      RRegistry.execute t reg name kwargs =
        (reg, .error (.securityError
          s!"Tool '{name}' execution blocked by security policy"
          reg.securityLevel.toStr
          s!"execute tool '{name}'"))) ∧
    ((∀ tg ∈ tool.tags, tg ∉ restrictedTags reg.securityLevel) →
      (RRegistry.execute t reg name kwargs).2 = tool.execute kwargs) := by
  refine ⟨checkSecurity_iff _ _, ?_, ?_⟩
  · rintro ⟨tg, htg, hmem⟩
    have hcs : checkSecurity reg.securityLevel tool.tags = false := by
      cases h : checkSecurity reg.securityLevel tool.tags
      · rfl
      · exact absurd hmem ((checkSecurity_iff _ _).mp h tg htg)
    simp [RRegistry.execute, hget, hcs]
  · intro hdisj
    have hcs : checkSecurity reg.securityLevel tool.tags = true :=
      (checkSecurity_iff _ _).mpr hdisj
    simp only [RRegistry.execute, hget, hcs, Bool.not_true, Bool.false_eq_true,
      if_false]
    cases h : tool.execute kwargs <;> simp [h]

/-- Witness for `execute_security_gate`: a `network`-tagged tool under
level Safe is blocked with a `SecurityError`. -/
theorem execute_security_gate_witness :
    RRegistry.execute 0 secRegFix "danger" [] =
      (secRegFix, .error (.securityError
        "Tool 'danger' execution blocked by security policy"
        "safe" "execute tool 'danger'")) :=
  (execute_security_gate 0 secRegFix "danger" netTool [] rfl).2.1
    ⟨"network", by decide, by decide⟩

/-- C2 counterexample: a tool body raising `tools.base.ToolError` is *not*
converted into a failed `ToolResult` — `Tool.__call__` re-raises it to the
caller. -/
theorem tool_error_propagates :
    toolCall 0 [] raisingToolErrorBody [] = .error (.toolError "boom") := rfl

/-- C2 (amended): under `Tool.__call__` every body exception *other than*
`tools.base.ToolError` is converted into a failed `ToolResult` carrying the
message; a `ToolError` raised by the body propagates; decorator-built tools
(`DecoratedTool.execute`) convert every exception, `ToolError` included. -/
theorem tool_exception_conversion (t : Nat) (ps : List ToolParameter)
    (body : List (String × Value) → Except PyExc ToolResult)
    (kwargs validated : List (String × Value))
    (hval : validateParameters ps kwargs = .ok validated) :
    (∀ e, body validated = .error e → (∀ m, e ≠ .toolError m) →
      toolCall t ps body kwargs =
        .ok { success := false, error := some e.message,
              metadata := [("error_type", .str e.typeName)],
              executionTime := some t }) ∧
    (∀ m, body validated = .error (.toolError m) →
      toolCall t ps body kwargs = .error (.toolError m)) ∧
    (∀ func kw e, func kw = .error e →
      decoratedExecute func kw =
        { success := false, error := some e.message,
          metadata := [("error_type", .str e.typeName)] }) := by
  refine ⟨?_, ?_, ?_⟩
  · intro e hbody hne
    cases e with
    | toolError m => exact absurd rfl (hne m)
    | toolNotFound n =>
      simp only [toolCall, hval, hbody]
    | securityError m l a =>
      simp only [toolCall, hval, hbody]
    | other ty m =>
      simp only [toolCall, hval, hbody]
  · intro m hbody
    simp only [toolCall, hval, hbody]
  · intro func kw e hfunc
    simp [decoratedExecute, hfunc]

/-- Witness for `tool_exception_conversion`: a `ValueError` from the body is
converted into a failed result. -/
theorem tool_exception_conversion_witness :
    toolCall 7 [] raisingValueErrorBody [] =
      .ok { success := false, error := some "bad",
            metadata := [("error_type", .str "ValueError")],
            executionTime := some 7 } :=
  (tool_exception_conversion 7 [] raisingValueErrorBody [] [] rfl).1
    (.other "ValueError" "bad") rfl (by intro m h; cases h)

/-- C9 counterexample: a decorated tool whose function returns Python `None`
yields a `ToolResult` with `success = true` but neither `data` nor `error`
present, violating the exactly-one-of-data-or-error invariant. -/
theorem decorated_success_without_data :
    (decoratedExecute funcNone []).success = true ∧
    (decoratedExecute funcNone []).data = none ∧
    (decoratedExecute funcNone []).error = none :=
  ⟨rfl, rfl, rfl⟩

/-- C9 (amended): a `ToolResult` built by `DecoratedTool.execute` from a
plain return value or an exception satisfies `success = true ↔ error`
absent, and a failed result always carries an error with no data; but a
successful result may lack `data` (function returning `None`), and a body
returning a `ToolResult` instance is passed through unconstrained, so the
exactly-one-of-data-or-error invariant does not hold in general. -/
theorem decorated_result_invariant
    (func : List (String × Value) → Except PyExc (ToolResult ⊕ Option Value))
    (kw : List (String × Value))
    (hp : ∀ r, func kw ≠ .ok (.inl r)) :
    ((decoratedExecute func kw).success = true ↔
      (decoratedExecute func kw).error = none) ∧
    ((decoratedExecute func kw).success = false →
      (decoratedExecute func kw).error.isSome = true ∧
      (decoratedExecute func kw).data = none) := by
  rcases h : func kw with e | rv
  · simp [decoratedExecute, h]
  · rcases rv with r | v
    · exact absurd h (hp r)
    · simp [decoratedExecute, h]

/-- Witness for `decorated_result_invariant` at the `None`-returning
function. -/
theorem decorated_result_invariant_witness :
    ((decoratedExecute funcNone []).success = true ↔
      (decoratedExecute funcNone []).error = none) ∧
    ((decoratedExecute funcNone []).success = false →
      (decoratedExecute funcNone []).error.isSome = true ∧
      (decoratedExecute funcNone []).data = none) :=
  decorated_result_invariant funcNone []
    (by intro r h; simp [funcNone] at h)

/-! ### Validation lemmas -/

theorem validateLoop_missing_required (ps : List ToolParameter)
    (h : ∃ p ∈ ps, p.required = true ∧ p.default = none) :
    ∃ m, validateLoop ps [] = .error (.toolError m) := by
  induction ps with
  | nil =>
    rcases h with ⟨p, hp, _⟩
    cases hp
  | cons q rest ih =>
    rcases h with ⟨p, hp, hreq, hdef⟩
    rcases List.mem_cons.mp hp with rfl | hmem
    · exact ⟨s!"Required parameter '{p.name}' not provided",
        by simp [validateLoop, pyLookup, hreq, hdef]⟩
    · by_cases hqr : q.required = true
      · cases hqd : q.default with
        | none => exact ⟨s!"Required parameter '{q.name}' not provided",
            by simp [validateLoop, pyLookup, hqr, hqd]⟩
        | some d =>
          obtain ⟨m, hm⟩ := ih ⟨p, hmem, hreq, hdef⟩
          exact ⟨m, by simp [validateLoop, pyLookup, hqr, hqd, hm]⟩
      · cases hqd : q.default with
        | none =>
          obtain ⟨m, hm⟩ := ih ⟨p, hmem, hreq, hdef⟩
          exact ⟨m, by simp [validateLoop, pyLookup, hqr, hqd, hm]⟩
        | some d =>
          obtain ⟨m, hm⟩ := ih ⟨p, hmem, hreq, hdef⟩
          exact ⟨m, by simp [validateLoop, pyLookup, hqr, hqd, hm]⟩

theorem upsertParam_not_mem (acc : List ToolParameter) (p : ToolParameter)
    (h : ∀ q ∈ acc, q.name ≠ p.name) : upsertParam acc p = acc ++ [p] := by
  induction acc with
  | nil => rfl
  | cons q rest ih =>
    have hq : q.name ≠ p.name := h q (by simp)
    simp only [upsertParam, if_neg hq, List.cons_append, List.cons.injEq, true_and]
    exact ih (fun q' hq' => h q' (by simp [hq']))

theorem foldl_upsertParam (ps acc : List ToolParameter)
    (hnd : (ps.map (·.name)).Nodup)
    (hdisj : ∀ p ∈ ps, ∀ q ∈ acc, q.name ≠ p.name) :
    ps.foldl upsertParam acc = acc ++ ps := by
  induction ps generalizing acc with
  | nil => simp
  | cons p rest ih =>
    have hstep : upsertParam acc p = acc ++ [p] :=
      upsertParam_not_mem acc p (fun q hq => hdisj p (by simp) q hq)
    have hnd' : (rest.map (·.name)).Nodup := (List.nodup_cons.mp hnd).2
    have hnotin : p.name ∉ rest.map (·.name) := (List.nodup_cons.mp hnd).1
    have hdisj' : ∀ r ∈ rest, ∀ q ∈ acc ++ [p], q.name ≠ r.name := by
      intro r hr q hq
      rcases List.mem_append.mp hq with hq | hq
      · exact hdisj r (by simp [hr]) q hq
      · rcases List.mem_singleton.mp hq with rfl
        intro hcontra
        exact hnotin (hcontra ▸ List.mem_map_of_mem (·.name) hr)
    calc (p :: rest).foldl upsertParam acc
        = rest.foldl upsertParam (upsertParam acc p) := rfl
      _ = rest.foldl upsertParam (acc ++ [p]) := by rw [hstep]
      _ = (acc ++ [p]) ++ rest := ih (acc ++ [p]) hnd' hdisj'
      _ = acc ++ (p :: rest) := by simp

theorem paramDict_nodup (ps : List ToolParameter)
    (h : (ps.map (·.name)).Nodup) : paramDict ps = ps := by
  simpa using foldl_upsertParam ps [] h (by simp)

/-- C7 counterexample: executing a tool that has a required parameter
without a default on an empty argument map raises `ToolError` through the
registry rather than returning a failed `ToolResult`. -/
theorem execute_empty_args_raises :
    Registry.execute 0 legacyRegFix "t" [] =
      .error (.toolError "Required parameter 'x' not provided") := rfl

/-- C7 (amended): with a required, default-free parameter and an empty
argument map, validation raises `ToolError` before the implementation can
run — the same fixed error results for *every* body, so the implementation
is never invoked — and `Registry.execute` propagates that exception instead
of returning a `success = false` result. -/
theorem execute_missing_required (t : Nat) (reg : Registry) (name : String)
    (tool : PyTool)
    (hget : reg.get name = some tool)
    (hnd : (tool.params.map (·.name)).Nodup)
    (hreq : ∃ p ∈ tool.params, p.required = true ∧ p.default = none) :
    ∃ m, (∀ body, toolCall t tool.params body [] = .error (.toolError m)) ∧
      Registry.execute t reg name [] = .error (.toolError m) := by
  obtain ⟨m, hm⟩ := validateLoop_missing_required tool.params hreq
  have hval : validateParameters tool.params [] = .error (.toolError m) := by
    simp [validateParameters, paramDict_nodup _ hnd, hm]
  refine ⟨m, fun body => ?_, ?_⟩
  · simp [toolCall, hval]
  · simp [Registry.execute, hget, toolCall, hval]

/-- Witness for `execute_missing_required` at the one-required-parameter
fixture. -/
theorem execute_missing_required_witness :
    ∃ m, (∀ body, toolCall 0 reqTool.params body [] = .error (.toolError m)) ∧
      Registry.execute 0 legacyRegFix "t" [] = .error (.toolError m) :=
  execute_missing_required 0 legacyRegFix "t" reqTool rfl (by simp [reqTool])
    ⟨{ name := "x", type := .string, description := "the input" },
     by simp [reqTool], rfl, rfl⟩

/-! ### Registration claims -/

/-- C5 counterexample: the legacy `ToolRegistry.register` has no `replace`
flag and does not fail on a duplicate name — it overwrites, so the second
tool (description `new`) replaces the original (description `old`). -/
theorem duplicate_register_overwrites :
    ((Registry.register (Registry.register {} toolA []) toolB []).get "a").map
        PyTool.description = some "new" ∧ ("new" : String) ≠ "old" :=
  ⟨rfl, by decide⟩

/-- C5 (amended, refactored registry): with the tool name already
registered and not shadowed by an alias, `register` without `replace`
raises `ToolError` before any mutation, and `register` with `replace = true`
succeeds with `get` returning the new instance. -/
theorem register_replace (reg : RRegistry) (t2 : RTool)
    (hdup : pyContains reg.tools t2.name = true)
    (halias : pyLookup reg.aliases t2.name = none) :
    (RRegistry.register reg t2 [] false =
      .error (.toolError s!"Tool '{t2.name}' already registered")) ∧
    (∃ reg', RRegistry.register reg t2 [] true = .ok reg' ∧
      reg'.get t2.name = some t2) := by
  constructor
  · simp [RRegistry.register, hdup]
  · have hstep : RRegistry.unregister reg t2.name =
        .ok { reg with
              tools := reg.tools.filter (fun kv => kv.1 != t2.name),
              aliases := reg.aliases.filter (fun kv => kv.2 != t2.name),
              stats := reg.stats.filter (fun kv => kv.1 != t2.name) } := by
      simp [RRegistry.unregister, halias, hdup]
    refine ⟨{ reg with
        tools := assocSet (reg.tools.filter (fun kv => kv.1 != t2.name)) t2.name t2,
        aliases := reg.aliases.filter (fun kv => kv.2 != t2.name),
        stats := reg.stats.filter (fun kv => kv.1 != t2.name) }, ?_, ?_⟩
    · simp [RRegistry.register, hdup, hstep, RRegistry.registerAliases]
    · show RRegistry.get _ t2.name = some t2
      simp [RRegistry.get, pyLookup_filter_none _ _ _ halias,
        pyLookup_assocSet_self]

/-- Witness for `register_replace` at a concrete one-tool registry. -/
theorem register_replace_witness :
    (RRegistry.register rRegFix rToolB [] false =
      .error (.toolError "Tool 'r' already registered")) ∧
    (∃ reg', RRegistry.register rRegFix rToolB [] true = .ok reg' ∧
      reg'.get "r" = some rToolB) :=
  register_replace rRegFix rToolB rfl rfl

/-! ### Server handshake claims -/

/-- C3: an `initialize` request whose `protocolVersion` differs from
`2024-11-05` is answered with error code `-32602` (INVALID_PARAMS) and the
handshake state stays un-initialized (the handler does record the client
info before the check, but the `initialized` flag — the New/Initialized
state of the machine — is untouched); the exact version is answered with an
`InitializeResult` and flips the state to Initialized. -/
theorem init_version_gate (t : Nat) (st : ServerState) (i : RpcId)
    (params : List (String × Value)) (req : InitParams)
    (hparse : parseInit params = .ok req)
    (hinit : st.initialized = false) :
    (req.protocolVersion ≠ "2024-11-05" →
      (MCPServer.handleMessage t st ⟨.val i, some "initialize", params⟩).2 =
        [.errorResponse (some i) (-32602)
          s!"Unsupported protocol version: {req.protocolVersion}"] ∧
      (MCPServer.handleMessage t st
        ⟨.val i, some "initialize", params⟩).1.initialized = false) ∧
    (req.protocolVersion = "2024-11-05" →
      (MCPServer.handleMessage t st ⟨.val i, some "initialize", params⟩).2 =
        [.response (some i) (.initRes
          { protocolVersion := "2024-11-05",
            capabilities := { tools := some [("listChanged", .bool true)],
                              logging := some [] },
            serverInfo := [("name", .str st.name), ("version", .str st.version)] })] ∧
      (MCPServer.handleMessage t st
        ⟨.val i, some "initialize", params⟩).1.initialized = true) := by
  constructor
  · intro hv
    simp [MCPServer.handleMessage, MCPServer.handlers, MCPServer.handleInit,
      hparse, hv, getId, hinit]
  · intro hv
    simp [MCPServer.handleMessage, MCPServer.handlers, MCPServer.handleInit,
      hparse, hv, getId]

/-- Witness for `init_version_gate`: version `1999-01-01` is rejected with
`-32602` and the server stays un-initialized. -/
theorem init_version_gate_witness :
    parseInit initBadParams =
      .ok { protocolVersion := "1999-01-01", capabilities := [], clientInfo := [] } ∧
    ((MCPServer.handleMessage 0 ({} : ServerState)
        ⟨.val (.num 1), some "initialize", initBadParams⟩).2 =
      [.errorResponse (some (.num 1)) (-32602)
        "Unsupported protocol version: 1999-01-01"] ∧
    (MCPServer.handleMessage 0 ({} : ServerState)
        ⟨.val (.num 1), some "initialize", initBadParams⟩).1.initialized = false) :=
  ⟨rfl,
   (init_version_gate 0 {} (.num 1) initBadParams
      { protocolVersion := "1999-01-01", capabilities := [], clientInfo := [] }
      rfl rfl).1 (by decide)⟩

/-- C4 counterexample: before initialization, `ping` is answered with a
*success* result (not error `-32600`), and `logging/setLevel` executes its
effect (the logging level is installed) — refuting the claim that every
non-`initialize` request is rejected before the handshake. -/
theorem ping_served_before_init :
    (MCPServer.handleMessage 0 ({} : ServerState)
        ⟨.val (.num 1), some "ping", []⟩).2 =
      [.response (some (.num 1)) .emptyRes] ∧
    (MCPServer.handleMessage 0 ({} : ServerState)
        ⟨.val (.num 2), some "logging/setLevel", [("level", .str "debug")]⟩).1.logLevel =
      some .debug ∧
    ({} : ServerState).initialized = false :=
  ⟨rfl, rfl, rfl⟩

/-- C4 (amended): only `tools/list` and `tools/call` are gated on the
handshake — before initialization they are answered with error `-32600`
(`Server not initialized`) and their handler effects do not run (the state
is returned unchanged); `ping` and `logging/setLevel` are served even
before initialization. -/
theorem uninitialized_gate (t : Nat) (st : ServerState) (i : RpcId)
    (params : List (String × Value)) (m : String)
    (hm : m = "tools/list" ∨ m = "tools/call")
    (hinit : st.initialized = false) :
    MCPServer.handleMessage t st ⟨.val i, some m, params⟩ =
      (st, [.errorResponse (some i) (-32600) "Server not initialized"]) := by
  rcases hm with rfl | rfl <;>
    simp [MCPServer.handleMessage, MCPServer.handlers, MCPServer.handleListTools,
      MCPServer.handleCallTool, hinit, getId]

/-- Witness for `uninitialized_gate` at `tools/list` on a fresh server. -/
theorem uninitialized_gate_witness :
    MCPServer.handleMessage 0 ({} : ServerState)
        ⟨.val (.num 3), some "tools/list", []⟩ =
      ({}, [.errorResponse (some (.num 3)) (-32600) "Server not initialized"]) :=
  uninitialized_gate 0 {} (.num 3) [] "tools/list" (Or.inl rfl) rfl

/-! ### Reply-correlation claim -/

theorem filter_isReply_map_notification
    (l : List (String × Option (List (String × Value)))) :
    (l.map (fun n => OutMsg.notification n.1 n.2)).filter OutMsg.isReply = [] := by
  induction l with
  | nil => rfl
  | cons x xs ih => simp [List.filter_cons, OutMsg.isReply, ih]

/-- C10 counterexample: a message with *no* `method` field and *no* id is
still answered — with an `INVALID_REQUEST` error carrying a null id — so a
reply is sent even though the id is absent. -/
theorem missing_method_always_replied :
    (MCPServer.handleMessage 0 ({} : ServerState) ⟨.absent, none, []⟩).2 =
      [.errorResponse none (-32600) "Missing method"] ∧
    getId .absent = none :=
  ⟨rfl, rfl⟩

/-- C10 (amended): the number of replies (responses or error responses) to
an inbound message is one exactly when the `method` field is missing
(always answered with `INVALID_REQUEST`) or `message.get("id")` is
non-`None`; a message carrying a method with an absent-or-null id is a
notification and receives no reply (its handler may still push server
notifications, which are not replies). -/
theorem reply_iff_id (t : Nat) (st : ServerState) (msg : InMessage) :
    ((MCPServer.handleMessage t st msg).2.filter OutMsg.isReply).length =
      (if msg.method = none ∨ (getId msg.idField).isSome = true then 1 else 0) := by
  rcases msg with ⟨idf, method, params⟩
  cases method with
  | none => simp [MCPServer.handleMessage, OutMsg.isReply, List.filter]
  | some m =>
    rcases h : MCPServer.handlers m with _ | hd
    · by_cases hid : (getId idf).isSome = true <;>
        simp [MCPServer.handleMessage, h, hid, OutMsg.isReply, List.filter]
    · rcases hres : (hd t st params).2.1 with e | r
      · cases e with
        | mcpError c em =>
          by_cases hid : (getId idf).isSome = true <;>
            simp [MCPServer.handleMessage, h, hres, hid, List.filter_append,
              filter_isReply_map_notification, OutMsg.isReply, List.filter]
        | pyExc em =>
          by_cases hid : (getId idf).isSome = true <;>
            simp [MCPServer.handleMessage, h, hres, hid, List.filter_append,
              filter_isReply_map_notification, OutMsg.isReply, List.filter]
      · by_cases hid : (getId idf).isSome = true <;>
          simp [MCPServer.handleMessage, h, hres, hid, List.filter_append,
            filter_isReply_map_notification, OutMsg.isReply, List.filter]

/-! ### Round-trip lemmas for the schema converters -/

theorem assocSet_not_contains (d : List (String × α)) (k : String) (v : α)
    (h : pyContains d k = false) : assocSet d k v = d ++ [(k, v)] := by
  induction d with
  | nil => rfl
  | cons kv rest ih =>
    obtain ⟨k1, v1⟩ := kv
    have hk : k1 ≠ k := (pyContains_false_iff _ _).mp h (k1, v1) (by simp)
    have hrest : pyContains rest k = false := by
      rw [pyContains_false_iff] at h ⊢
      exact fun kv' h' => h kv' (by simp [h'])
    simp [assocSet, hk, ih hrest]

theorem toolToMcp_fold (ps : List ToolParameter)
    (accP : List (String × Value)) (accR : List String) :
    ps.foldl (fun (acc : List (String × Value) × List String) p =>
        (assocSet acc.1 p.name (.dict (buildParamSchema p)),
         if p.required then acc.2 ++ [p.name] else acc.2)) (accP, accR) =
      (ps.foldl (fun a p => assocSet a p.name (.dict (buildParamSchema p))) accP,
       accR ++ (ps.filter (·.required)).map (·.name)) := by
  induction ps generalizing accP accR with
  | nil => simp
  | cons p rest ih =>
    by_cases hr : p.required = true <;>
      simp [List.foldl_cons, List.filter_cons, hr, ih]

theorem foldl_assocSet_map (ps : List ToolParameter) (acc : List (String × Value))
    (hnd : (ps.map (·.name)).Nodup)
    (hdisj : ∀ p ∈ ps, pyContains acc p.name = false) :
    ps.foldl (fun a p => assocSet a p.name (Value.dict (buildParamSchema p))) acc =
      acc ++ ps.map (fun p => (p.name, Value.dict (buildParamSchema p))) := by
  induction ps generalizing acc with
  | nil => simp
  | cons p rest ih =>
    have hstep := assocSet_not_contains acc p.name (Value.dict (buildParamSchema p))
      (hdisj p (by simp))
    have hnd' : (rest.map (·.name)).Nodup := (List.nodup_cons.mp hnd).2
    have hnotin : p.name ∉ rest.map (·.name) := (List.nodup_cons.mp hnd).1
    have hdisj' : ∀ q ∈ rest,
        pyContains (acc ++ [(p.name, Value.dict (buildParamSchema p))]) q.name = false := by
      intro q hq
      rw [pyContains_false_iff]
      intro kv hkv
      rcases List.mem_append.mp hkv with hkv | hkv
      · exact (pyContains_false_iff _ _).mp (hdisj q (by simp [hq])) kv hkv
      · rcases List.mem_singleton.mp hkv with rfl
        intro hcontra
        exact hnotin (by
          have hmm := List.mem_map_of_mem (·.name) hq
          simpa [← hcontra] using hmm)
    rw [List.foldl_cons, hstep, ih _ hnd' hdisj']
    simp

theorem buildParamSchema_lookup_reserved (p : ToolParameter) (k : String)
    (hk1 : k ≠ "description") (hk2 : k ≠ "default")
    (hc : ∀ c, p.constraints = some c → pyContains c k = false) :
    pyLookup (buildParamSchema p) k = pyLookup (parameterTypeToJsonSchema p.type) k := by
  have step3 : ∀ s : List (String × Value),
      pyLookup (match p.constraints with
        | some c => if !c.isEmpty then dictUpdate s c else s
        | none => s) k = pyLookup s k := by
    intro s
    rcases hcon : p.constraints with _ | c
    · rfl
    · by_cases hce : c.isEmpty = true <;>
        simp [hce, pyLookup_dictUpdate_not_mem c s k (hc c hcon)]
  have step2 : ∀ s : List (String × Value),
      pyLookup (match p.default with
        | some d => assocSet s "default" d
        | none => s) k = pyLookup s k := by
    intro s
    rcases p.default with _ | dv
    · rfl
    · exact pyLookup_assocSet_ne s "default" k dv hk2
  have step1 :
      pyLookup (if p.description != "" then
          assocSet (parameterTypeToJsonSchema p.type) "description" (.str p.description)
        else parameterTypeToJsonSchema p.type) k =
        pyLookup (parameterTypeToJsonSchema p.type) k := by
    by_cases hds : (p.description != "") = true <;>
      simp [hds, pyLookup_assocSet_ne _ "description" k _ hk1]
  unfold buildParamSchema
  rw [step3, step2, step1]

theorem parseParamSchema_roundtrip (p : ToolParameter) (reqVals : List Value)
    (hc : ∀ c, p.constraints = some c →
      pyContains c "type" = false ∧ pyContains c "format" = false) :
    (parseParamSchema p.name reqVals (buildParamSchema p)).name = p.name ∧
    (parseParamSchema p.name reqVals (buildParamSchema p)).type = p.type ∧
    (parseParamSchema p.name reqVals (buildParamSchema p)).required =
      containsStr reqVals p.name := by
  refine ⟨rfl, ?_, rfl⟩
  have ht := buildParamSchema_lookup_reserved p "type" (by decide) (by decide)
    (fun c h => (hc c h).1)
  have hf := buildParamSchema_lookup_reserved p "format" (by decide) (by decide)
    (fun c h => (hc c h).2)
  cases hτ : p.type <;> rw [hτ] at ht hf <;>
    simp only [parseParamSchema, ht, hf, parameterTypeToJsonSchema, pyLookup_cons] <;>
    decide

theorem containsStr_map_str_iff (xs : List String) (n : String) :
    containsStr (xs.map .str) n = true ↔ n ∈ xs := by
  induction xs with
  | nil => simp [containsStr]
  | cons x rest ih =>
    simp only [containsStr, List.map_cons, List.any_cons] at ih ⊢
    rw [Bool.or_eq_true, ih, List.mem_cons]
    constructor
    · rintro (h | h)
      · exact Or.inl (eq_of_beq h).symm
      · exact Or.inr h
    · rintro (h | h)
      · exact Or.inl (by simp [h])
      · exact Or.inr h

theorem required_names_mem (ps : List ToolParameter) (p : ToolParameter)
    (hmem : p ∈ ps) (hnd : (ps.map (·.name)).Nodup) :
    containsStr (((ps.filter (·.required)).map (·.name)).map .str) p.name =
      p.required := by
  cases hr : p.required
  · cases hcs : containsStr (((ps.filter (·.required)).map (·.name)).map .str) p.name
    · rfl
    · exfalso
      have hn : p.name ∈ (ps.filter (·.required)).map (·.name) :=
        (containsStr_map_str_iff _ _).mp hcs
      obtain ⟨q, hqf, hqn⟩ := List.mem_map.mp hn
      have hqp := List.mem_filter.mp hqf
      have hqe : q = p := List.inj_on_of_nodup_map hnd hqp.1 hmem hqn
      rw [hqe] at hqp
      rw [hr] at hqp
      exact absurd hqp.2 (by simp)
  · have hn : p.name ∈ (ps.filter (·.required)).map (·.name) :=
      List.mem_map_of_mem _ (List.mem_filter.mpr ⟨hmem, by simp [hr]⟩)
    exact (containsStr_map_str_iff _ _).mpr hn

/-- C6: converting a tool to the MCP wire form and back preserves the name
and, parameter by parameter (in order, hence also as sets), the parameter
name, its declared type — exactly, for all eight types — and its
required flag.  `Valid` means the parameter names are distinct (the spec
requires uniqueness within a tool) and constraint maps do not use the
reserved JSON-schema keys `type`/`format` (the spec's constraint vocabulary
— min/max/pattern/enum/allowed_extensions — never does); a constraint
carrying those keys would be copied into the schema node by
`schema.update(...)` and change the recovered type. -/
theorem mcp_round_trip (tool : PyTool)
    (hnd : (tool.params.map (·.name)).Nodup)
    (hc : ∀ p ∈ tool.params, ∀ c, p.constraints = some c →
      pyContains c "type" = false ∧ pyContains c "format" = false) :
    (mcpToTool (toolToMcp tool)).name = tool.name ∧
    (mcpToTool (toolToMcp tool)).params.map (fun q => (q.name, q.type, q.required)) =
      tool.params.map (fun p => (p.name, p.type, p.required)) := by
  refine ⟨rfl, ?_⟩
  have hparams : (mcpToTool (toolToMcp tool)).params =
      tool.params.map (fun p => parseParamSchema p.name
        ((((tool.params.filter (·.required)).map (·.name))).map .str)
        (buildParamSchema p)) := by
    show mcpToolParameters (toolToMcp tool) = _
    simp only [toolToMcp, toolToMcp_fold,
      foldl_assocSet_map tool.params [] hnd (fun p _ => rfl), List.nil_append]
    by_cases hreqE :
        ((tool.params.filter (·.required)).map (·.name)).isEmpty = true
    · rw [List.isEmpty_iff.mp hreqE]
      by_cases hsafe : tool.isSafe = true <;>
        simp [hsafe, mcpToolParameters, assocSet, pyLookup_cons, pyLookup_nil,
          List.map_map, Function.comp]
    · by_cases hsafe : tool.isSafe = true <;>
        simp [hreqE, hsafe, mcpToolParameters, assocSet, pyLookup_cons,
          pyLookup_nil, List.map_map, Function.comp]
  rw [hparams, List.map_map]
  apply List.map_congr_left
  intro p hp
  have h3 := parseParamSchema_roundtrip p
    ((((tool.params.filter (·.required)).map (·.name))).map .str) (hc p hp)
  have h4 := required_names_mem tool.params p hp hnd
  simp only [Function.comp_apply, h3.1, h3.2.1, h3.2.2, h4]

/-- Witness for `mcp_round_trip` at a tool exercising all eight parameter
types. -/
theorem mcp_round_trip_witness :
    (mcpToTool (toolToMcp roundTool)).name = roundTool.name ∧
    (mcpToTool (toolToMcp roundTool)).params.map (fun q => (q.name, q.type, q.required)) =
      roundTool.params.map (fun p => (p.name, p.type, p.required)) :=
  mcp_round_trip roundTool (by simp [roundTool])
    (by
      intro p hp c hcp
      simp only [roundTool, List.mem_cons, List.not_mem_nil, or_false] at hp
      rcases hp with rfl | rfl | rfl | rfl | rfl | rfl | rfl | rfl <;>
        simp_all <;> subst hcp <;> decide)

end Ajentik
